import Mathlib

/-!
Verification of the rask-ui SWC component transform
(`src/packages/core/swc-plugin/src/lib.rs`).

The development shallow-embeds the fragment of the SWC ECMAScript AST that the
plugin inspects or produces, together with the plugin's operations:

* `hasVnodeCall` — the recursive creation-call detector (`has_vnode_call`,
  lib.rs lines 32-103);
* `isStatelessComponent` / `isRaskComponent` — the two classification
  predicates (`is_stateless_component` lines 106-123, `is_rask_component`
  lines 126-158);
* `transformToStatefulClass` / `transformToStatelessClass` — the class
  rewriters (lines 161-250);
* `rewriteInfernoImports` — the legacy-import-source rewrite (lines 253-273);
* `injectRuntime` — the runtime-import injection (lines 276-371);
* `transformItem` / `transformModule` — the `VisitMut` orchestration
  (`visit_mut_module_item` lines 388-446, `visit_mut_module` lines 377-386).

Modelling conventions: identifiers are their symbol strings (the hygiene
context attached by `private_ident!` is not modelled; only names are compared
anywhere in the plugin); AST node kinds the plugin never inspects are opaque
constructors carrying a `Nat` tag; spans and other carried-but-never-read
fields of `Function` are collapsed into an opaque `extra : Nat` field, which
every operation threads through unchanged exactly as the Rust code moves the
whole `Function` value.
-/

set_option maxHeartbeats 1000000

/-! ### The embedded AST

Mirrors `swc_core::ecma::ast` restricted to the shapes `lib.rs` matches on.
`JSExpr.otherExpr` stands for every expression variant the detector's final
catch-all (`_ => false`, line 101) covers; likewise `JSStmt.otherStmt`,
`JSDecl.otherDecl`, `JSClassMember.otherMember`.
-/

mutual

inductive JSExpr where
  | ident (sym : String)
  | call (callee : JSCallee) (args : List JSExpr)
  | paren (inner : JSExpr)
  | cond (test : JSExpr) (cons : JSExpr) (alt : JSExpr)
  | bin (left : JSExpr) (right : JSExpr)
  | array (elems : List (Option JSExpr))
  | arrow (params : List Nat) (body : JSArrowBody)
  | member (obj : JSExpr)
  | unary (arg : JSExpr)
  | fnExpr (name : Option String) (fn : JSFunction)
  | otherExpr (tag : Nat)

inductive JSCallee where
  | calleeExpr (e : JSExpr)
  | calleeOther

inductive JSArrowBody where
  | bodyExpr (e : JSExpr)
  | bodyBlock (stmts : List JSStmt)

inductive JSStmt where
  | ret (arg : Option JSExpr)
  | declStmt (d : JSDecl)
  | block (stmts : List JSStmt)
  | otherStmt (tag : Nat)

inductive JSDecl where
  | fnDecl (name : String) (fn : JSFunction)
  | classDecl (name : String) (superClass : Option JSExpr) (members : List JSClassMember)
  | otherDecl (tag : Nat)

inductive JSFunction where
  | mk (params : List Nat) (body : Option (List JSStmt)) (extra : Nat)

inductive JSClassMember where
  | classProp (key : String) (value : Option JSExpr)
  | otherMember (tag : Nat)

end

def JSFunction.params : JSFunction → List Nat
  | .mk p _ _ => p

def JSFunction.body : JSFunction → Option (List JSStmt)
  | .mk _ b _ => b

def JSFunction.extra : JSFunction → Nat
  | .mk _ _ e => e

/-! ### Module-level AST -/

inductive JSModuleExportName where
  | nameIdent (sym : String)
  | nameStr (value : String)

/-- Import specifiers: `ImportSpecifier.{Named, Default, Namespace}` of swc. -/
inductive JSImportSpecifier where
  | named (localName : String) (importedName : Option JSModuleExportName) (isTypeOnly : Bool)
  | defaultSpec (localName : String)
  | namespaceSpec (localName : String)

structure JSImportDecl where (src : String) (specifiers : List JSImportSpecifier) (typeOnly : Bool)

/-- Module items, restricted to the shapes `visit_mut_module_item` matches:
a bare statement, an import declaration, `export <decl>`,
`export default function ...` (a function expression with optional name),
and an opaque rest. -/
inductive JSModuleItem where
  | stmtItem (s : JSStmt)
  | importDecl (imp : JSImportDecl)
  | exportDecl (d : JSDecl)
  | exportDefaultFn (name : Option String) (fn : JSFunction)
  | otherItem (tag : Nat)

/-- Plugin configuration (`Config`, lib.rs lines 9-14): one optional
`importSource` string. -/
structure Config where (importSource : Option String)

/-- The traversal state of `RaskComponentTransform` (lib.rs lines 16-20):
the two lazily allocated base-class identifiers, modelled by their symbol. -/
structure TState where (importRaskStatefulComponent : Option String) (importRaskStatelessComponent : Option String)

/-- `RaskComponentTransform::new` (lib.rs lines 23-28): both identifiers start
unallocated. -/
def initState : TState := ⟨none, none⟩

/-! ### The creation-call detector (`has_vnode_call`, lib.rs lines 32-103) -/

mutual

/-- Direct translation of `has_vnode_call`.  The `Call` case (lines 35-54)
first matches a bare identifier callee against the four creation-call names,
then recurses into the arguments; `Paren`, `Cond`, `Bin`, `Array`, `Arrow`,
`Member` and `Unary` recurse per lines 56-98; everything else is the
catch-all `_ => false` (line 101). -/
def hasVnodeCall : JSExpr → Bool
  | .ident _ => false
  | .call c args =>
      (match c with
       | .calleeExpr (.ident sym) =>
           sym == "createVNode" || sym == "createComponentVNode" ||
           sym == "createFragment" || sym == "createTextVNode"
       | _ => false)
      || hasVnodeCallArgs args
  | .paren inner => hasVnodeCall inner
  | .cond _ cons alt => hasVnodeCall cons || hasVnodeCall alt
  | .bin l r => hasVnodeCall l || hasVnodeCall r
  | .array elems => hasVnodeCallElems elems
  | .arrow _ b => hasVnodeCallArrowBody b
  | .member obj => hasVnodeCall obj
  | .unary a => hasVnodeCall a
  | .fnExpr _ _ => false
  | .otherExpr _ => false

/-- The argument loop of the `Call` case (lib.rs lines 48-52). -/
def hasVnodeCallArgs : List JSExpr → Bool
  | [] => false
  | e :: es => hasVnodeCall e || hasVnodeCallArgs es

/-- The `Array` case (lib.rs lines 69-75): sparse holes (`None` elements)
contribute `false` via `unwrap_or(false)`. -/
def hasVnodeCallElems : List (Option JSExpr) → Bool
  | [] => false
  | none :: es => hasVnodeCallElems es
  | some e :: es => hasVnodeCall e || hasVnodeCallElems es

/-- The `Arrow` case (lib.rs lines 78-92): an expression body is tested
directly; a block body only has the arguments of its top-level `return`
statements tested. -/
def hasVnodeCallArrowBody : JSArrowBody → Bool
  | .bodyExpr e => hasVnodeCall e
  | .bodyBlock stmts => hasVnodeCallRetList stmts

/-- The block-body loop (lib.rs lines 81-89): only `Stmt::Return` with a
present argument is inspected. -/
def hasVnodeCallRetList : List JSStmt → Bool
  | [] => false
  | .ret (some arg) :: rest => hasVnodeCall arg || hasVnodeCallRetList rest
  | .ret none :: rest => hasVnodeCallRetList rest
  | .declStmt _ :: rest => hasVnodeCallRetList rest
  | .block _ :: rest => hasVnodeCallRetList rest
  | .otherStmt _ :: rest => hasVnodeCallRetList rest

end

/-! ### The classifier (lib.rs lines 106-158) -/

def isArrowExpr : JSExpr → Bool
  | .arrow _ _ => true
  | _ => false

def isReturnStmt : JSStmt → Bool
  | .ret _ => true
  | _ => false

/-- The per-statement test of the `is_stateless_component` loop (lib.rs lines
109-119): a `return` whose argument satisfies the detector and is not an
arrow function. -/
def statelessRet : JSStmt → Bool
  | .ret (some arg) => hasVnodeCall arg && !(isArrowExpr arg)
  | _ => false

/-- The per-statement test of the `is_rask_component` loop (lib.rs lines
129-154): a `return` whose argument is an arrow function whose body passes
the same arrow-body scan as `has_vnode_call` (the source duplicates that scan
inline at lines 134-151; it is literally the code of lines 78-92). -/
def statefulRet : JSStmt → Bool
  | .ret (some (.arrow _ b)) => hasVnodeCallArrowBody b
  | _ => false

/-- `is_stateless_component` (lib.rs lines 106-123): scan the top-level body
statements for a qualifying return; a body-less function is not a
component. -/
def isStatelessComponent (f : JSFunction) : Bool :=
  match f.body with
  | some stmts => stmts.any statelessRet
  | none => false

/-- `is_rask_component` (lib.rs lines 126-158): scan the top-level body
statements for a return of a qualifying arrow function. -/
def isRaskComponent (f : JSFunction) : Bool :=
  match f.body with
  | some stmts => stmts.any statefulRet
  | none => false

inductive Classification where
  | Stateful
  | Stateless
  | NotAComponent

/-- The classification order hard-coded in `visit_mut_module_item` (lib.rs
lines 390-406 and 423-439): the stateful test runs first, the stateless test
only on its failure. -/
def classify (f : JSFunction) : Classification :=
  if isRaskComponent f then .Stateful
  else if isStatelessComponent f then .Stateless
  else .NotAComponent

/-! ### The class rewriters (lib.rs lines 161-250) -/

/-- `transform_to_stateful_class` (lib.rs lines 161-204): lazily allocate the
stateful base-class identifier (`private_ident!("RaskStatefulComponent")`,
modelled by its symbol), then build `class name extends <ident> with a single
field setup = function name(params) body`. -/
def transformToStatefulClass (s : TState) (name : String) (f : JSFunction) : JSDecl × TState :=
  let superIdent := s.importRaskStatefulComponent.getD "RaskStatefulComponent"
  let s' : TState := ⟨some superIdent, s.importRaskStatelessComponent⟩
  (.classDecl name (some (.ident superIdent))
     [.classProp "setup" (some (.fnExpr (some name) f))], s')

/-- `transform_to_stateless_class` (lib.rs lines 207-250): symmetric, field
key `renderFn`, base class `RaskStatelessComponent`. -/
def transformToStatelessClass (s : TState) (name : String) (f : JSFunction) : JSDecl × TState :=
  let superIdent := s.importRaskStatelessComponent.getD "RaskStatelessComponent"
  let s' : TState := ⟨s.importRaskStatefulComponent, some superIdent⟩
  (.classDecl name (some (.ident superIdent))
     [.classProp "renderFn" (some (.fnExpr (some name) f))], s')

/-! ### Import management (lib.rs lines 253-371) -/

/-- The `import_source` resolution repeated at lib.rs lines 254-259 and
277-282: the configured string, or the default `"rask-ui"`. -/
def resolveImportSource (cfg : Config) : String :=
  match cfg.importSource with
  | some s => s
  | none => "rask-ui"

/-- One step of `rewrite_inferno_imports` (lib.rs lines 261-272): an import
whose source is `"inferno"` gets its source replaced by the configured one,
specifiers untouched; every other item is untouched. -/
def rewriteInfernoItem (cfg : Config) (it : JSModuleItem) : JSModuleItem :=
  match it with
  | .importDecl imp =>
      if imp.src == "inferno" then
        .importDecl ⟨resolveImportSource cfg, imp.specifiers, imp.typeOnly⟩
      else .importDecl imp
  | _ => it

/-- `rewrite_inferno_imports` (lib.rs lines 253-273). -/
def rewriteInfernoImports (cfg : Config) (items : List JSModuleItem) : List JSModuleItem :=
  items.map (rewriteInfernoItem cfg)

/-- The specifier test of the existence check (lib.rs lines 294-304 and
328-338): only `Named` specifiers are considered; when the explicit imported
name is an identifier its symbol is compared, otherwise (shorthand `None` or
a string-literal name, both failing the `Some(ModuleExportName::Ident(..))`
pattern) the `else` branch compares the local binding. -/
def importedNameMatches (nm : String) (spec : JSImportSpecifier) : Bool :=
  match spec with
  | .named localName importedName _ =>
      match importedName with
      | some (.nameIdent sym) => sym == nm
      | _ => localName == nm
  | _ => false

/-- The existence scan of `inject_runtime` (lib.rs lines 289-308, duplicated
for the stateless name at lines 323-342): some import from the configured
source has a matching specifier. -/
def importExists (cfg : Config) (items : List JSModuleItem) (nm : String) : Bool :=
  items.any fun it =>
    match it with
    | .importDecl imp =>
        imp.src == resolveImportSource cfg && imp.specifiers.any (importedNameMatches nm)
    | _ => false

/-- The stateful part of the specifier queue (lib.rs lines 287-318): if the
stateful base-class identifier was allocated and no matching import exists,
queue `RaskStatefulComponent as <localName>`. -/
def statefulQueued (cfg : Config) (s : TState) (items : List JSModuleItem) : List JSImportSpecifier :=
  match s.importRaskStatefulComponent with
  | some localName =>
      if importExists cfg items "RaskStatefulComponent" then []
      else [.named localName (some (.nameIdent "RaskStatefulComponent")) false]
  | none => []

/-- The stateless part of the specifier queue (lib.rs lines 321-352). -/
def statelessQueued (cfg : Config) (s : TState) (items : List JSModuleItem) : List JSImportSpecifier :=
  match s.importRaskStatelessComponent with
  | some localName =>
      if importExists cfg items "RaskStatelessComponent" then []
      else [.named localName (some (.nameIdent "RaskStatelessComponent")) false]
  | none => []

/-- The full specifier queue built by `inject_runtime`, stateful first. -/
def queuedSpecs (cfg : Config) (s : TState) (items : List JSModuleItem) : List JSImportSpecifier :=
  statefulQueued cfg s items ++ statelessQueued cfg s items

/-- `inject_runtime` (lib.rs lines 276-371): if any specifier was queued,
synthesize one import statement from the configured source and insert it as
the first module item (`module.body.insert(0, import)`, line 369). -/
def injectRuntime (cfg : Config) (s : TState) (items : List JSModuleItem) : List JSModuleItem :=
  if (queuedSpecs cfg s items).isEmpty then items
  else .importDecl ⟨resolveImportSource cfg, queuedSpecs cfg s items, false⟩ :: items

/-! ### The orchestrator (lib.rs lines 374-460) -/

/-- `visit_mut_module_item` (lib.rs lines 388-446).  Only three shapes are
targeted: a bare `function` declaration statement, a named-export `function`
declaration (stateful test first in both, lines 392 and 425), and a default
export of a function expression, which is inspected but deliberately never
rewritten (lines 408-420).  Every other item falls through to
`visit_mut_children_with`, which mutates nothing because the visitor
overrides no other method — so the item is returned unchanged. -/
def transformItem (s : TState) (item : JSModuleItem) : JSModuleItem × TState :=
  match item with
  | .stmtItem (.declStmt (.fnDecl name f)) =>
      if isRaskComponent f then
        let r := transformToStatefulClass s name f
        (.stmtItem (.declStmt r.1), r.2)
      else if isStatelessComponent f then
        let r := transformToStatelessClass s name f
        (.stmtItem (.declStmt r.1), r.2)
      else (item, s)
  | .exportDefaultFn _ _ => (item, s)
  | .exportDecl (.fnDecl name f) =>
      if isRaskComponent f then
        let r := transformToStatefulClass s name f
        (.exportDecl r.1, r.2)
      else if isStatelessComponent f then
        let r := transformToStatelessClass s name f
        (.exportDecl r.1, r.2)
      else (item, s)
  | _ => (item, s)

/-- The item traversal of `visit_mut_children_with(self)` on the module
(lib.rs line 379): each item in order, threading the visitor state. -/
def transformItems : TState → List JSModuleItem → List JSModuleItem × TState
  | s, [] => ([], s)
  | s, it :: rest =>
      let r := transformItem s it
      let r2 := transformItems r.2 rest
      (r.1 :: r2.1, r2.2)

/-- `visit_mut_module` (lib.rs lines 377-386): traverse the items, then
rewrite legacy imports, then inject runtime imports, in that order, with a
fresh `RaskComponentTransform::new` state per module
(`process_transform`, lib.rs line 458). -/
def transformModule (cfg : Config) (items : List JSModuleItem) : List JSModuleItem :=
  let r := transformItems initState items
  injectRuntime cfg r.2 (rewriteInfernoImports cfg r.1)

/-- The configuration handling of `process_transform` (lib.rs lines 449-460):
the outcome of the external `serde_json` parse is an `Option Config`, and
`unwrap_or_default()` turns a parse failure into the default configuration
(no `importSource`). -/
def configOfParse : Option Config → Config
  | some c => c
  | none => ⟨none⟩

/-! ### Concrete inputs used by the claim theorems -/

/-- A bare creation call `createVNode()`. -/
def createVNodeCall : JSExpr := .call (.calleeExpr (.ident "createVNode")) []

/-- `function F() { return items.map(x => createVNode(...)); }` — the list-map
example: the creation call sits inside a call argument. -/
def mapExampleFn : JSFunction :=
  .mk [] (some [.ret (some (.call (.calleeExpr (.member (.ident "items")))
    [.arrow [0] (.bodyExpr createVNodeCall)]))]) 0

/-- A function with two top-level returns, the first an arrow returning a
creation call, the second returning a creation call directly:
`function F() { return () => createVNode(); return createVNode(); }`. -/
def twoReturnsFn : JSFunction :=
  .mk [] (some [.ret (some (.arrow [] (.bodyExpr createVNodeCall))),
                .ret (some createVNodeCall)]) 0

/-- `function F() { return () => createVNode(); }` — a single-return stateful
component. -/
def statefulExampleFn : JSFunction :=
  .mk [] (some [.ret (some (.arrow [] (.bodyExpr createVNodeCall)))]) 0

/-- `function F() { return createVNode(); }` — a single-return stateless
component. -/
def statelessExampleFn : JSFunction :=
  .mk [] (some [.ret (some createVNodeCall)]) 0

/-- An import of the default source whose sole specifier is a string-named
alias whose local binding collides with the stateful base-class name:
`import { "SomethingElse" as RaskStatefulComponent } from "rask-ui"`. -/
def c9StrAliasImport : JSImportDecl :=
  ⟨"rask-ui", [.named "RaskStatefulComponent" (some (.nameStr "SomethingElse")) false], false⟩

def c9Items : List JSModuleItem := [.importDecl c9StrAliasImport]

/-- A traversal state in which only the stateful base class was allocated. -/
def c9State : TState := ⟨some "RaskStatefulComponent", none⟩

/-- A helper function declaration with an empty body, used as a nested
declaration in examples. -/
def helperFn : JSFunction := .mk [] (some []) 0

/-- A stateful component whose body also contains a nested function
declaration before the qualifying return. -/
def statefulWithNestedFn : JSFunction :=
  .mk [] (some [.declStmt (.fnDecl "Helper" helperFn),
                .ret (some (.arrow [] (.bodyExpr createVNodeCall)))]) 0

/-- A traversal state in which both base classes were allocated, with
distinct local symbols. -/
def c6State : TState := ⟨some "A", some "B"⟩

/-- The imported name a specifier binds, read off the specifier: the explicit
identifier name when present, the local binding for shorthand or string-named
specifiers, nothing for default and namespace imports.  Used only to state
that the injected import never carries two specifiers for one name. -/
def specImportedSym : JSImportSpecifier → Option String
  | .named _ (some (.nameIdent sym)) _ => some sym
  | .named localName _ _ => some localName
  | .defaultSpec _ => none
  | .namespaceSpec _ => none

/-- An item is untouched when `visit_mut_module_item` returns it unchanged
with the state unchanged, whatever the state. -/
def untouchedItem (it : JSModuleItem) : Prop :=
  ∀ s : TState, transformItem s it = (it, s)

/-! ### Helper lemmas -/

/-- The argument loop of the `Call` case is a list-`any`. -/
theorem hasVnodeCallArgs_iff (l : List JSExpr) :
    hasVnodeCallArgs l = true ↔ ∃ a ∈ l, hasVnodeCall a = true := by
  induction l with
  | nil => simp [hasVnodeCallArgs]
  | cons e es ih => simp [hasVnodeCallArgs, Bool.or_eq_true, ih]

/-- A statement witnessing the stateful shape cannot witness the stateless
shape: the witnessed argument is an arrow function, which the stateless test
excludes. -/
theorem statefulRet_not_statelessRet (st : JSStmt) (h : statefulRet st = true) :
    statelessRet st = false := by
  cases st with
  | ret a =>
    cases a with
    | none => simp [statefulRet] at h
    | some e =>
      cases e
      case arrow p b => simp [statelessRet, isArrowExpr]
      all_goals simp [statefulRet] at h
  | declStmt d => simp [statefulRet] at h
  | block bs => simp [statefulRet] at h
  | otherStmt t => simp [statefulRet] at h

theorem statefulRet_isReturn (st : JSStmt) (h : statefulRet st = true) :
    isReturnStmt st = true := by
  cases st with
  | ret a => rfl
  | declStmt d => simp [statefulRet] at h
  | block bs => simp [statefulRet] at h
  | otherStmt t => simp [statefulRet] at h

theorem statelessRet_isReturn (st : JSStmt) (h : statelessRet st = true) :
    isReturnStmt st = true := by
  cases st with
  | ret a => rfl
  | declStmt d => simp [statelessRet] at h
  | block bs => simp [statelessRet] at h
  | otherStmt t => simp [statelessRet] at h

/-- Whatever `visit_mut_module_item` produces is a fixed point of
`visit_mut_module_item`: synthesized classes are no longer function
declarations, and unchanged items classify identically again. -/
theorem transformItem_untouched_result (s : TState) (it : JSModuleItem) :
    untouchedItem (transformItem s it).1 := by
  intro s0
  cases it with
  | stmtItem st =>
    cases st with
    | declStmt d =>
      cases d with
      | fnDecl name f =>
        by_cases h1 : isRaskComponent f = true
        · simp [transformItem, h1, transformToStatefulClass]
        · by_cases h2 : isStatelessComponent f = true
          · simp [transformItem, h1, h2, transformToStatelessClass]
          · simp [transformItem, h1, h2]
      | classDecl n sup mems => rfl
      | otherDecl t => rfl
    | ret a => rfl
    | block bs => rfl
    | otherStmt t => rfl
  | importDecl imp => rfl
  | exportDecl d =>
    cases d with
    | fnDecl name f =>
      by_cases h1 : isRaskComponent f = true
      · simp [transformItem, h1, transformToStatefulClass]
      · by_cases h2 : isStatelessComponent f = true
        · simp [transformItem, h1, h2, transformToStatelessClass]
        · simp [transformItem, h1, h2]
    | classDecl n sup mems => rfl
    | otherDecl t => rfl
  | exportDefaultFn nm f => rfl
  | otherItem t => rfl

/-- Every item the traversal outputs is untouched by a renewed traversal. -/
theorem transformItems_untouched_result (l : List JSModuleItem) (s : TState) :
    ∀ it ∈ (transformItems s l).1, untouchedItem it := by
  induction l generalizing s with
  | nil => intro it h; simp [transformItems] at h
  | cons a as ih =>
    intro it h
    simp only [transformItems, List.mem_cons] at h
    rcases h with h | h
    · subst h; exact transformItem_untouched_result s a
    · exact ih _ it h

/-- Traversing a list of untouched items changes nothing, state included. -/
theorem transformItems_fixed : ∀ (l : List JSModuleItem) (s : TState),
    (∀ it ∈ l, untouchedItem it) → transformItems s l = (l, s) := by
  intro l
  induction l with
  | nil => intro s h; rfl
  | cons a as ih =>
    intro s h
    have ha := h a (List.mem_cons_self a as) s
    have has : ∀ it ∈ as, untouchedItem it := fun it hit => h it (List.mem_cons_of_mem a hit)
    simp [transformItems, ha, ih s has]

/-- The import rewrite maps untouched items to untouched items (every import
declaration is untouched by the item traversal). -/
theorem rewriteInfernoItem_untouched (cfg : Config) (it : JSModuleItem)
    (h : untouchedItem it) : untouchedItem (rewriteInfernoItem cfg it) := by
  cases it with
  | importDecl imp =>
    intro s0
    by_cases hs : (imp.src == "inferno") = true
    · simp only [rewriteInfernoItem, if_pos hs]; rfl
    · simp only [rewriteInfernoItem, if_neg hs]; rfl
  | stmtItem st => exact h
  | exportDecl d => exact h
  | exportDefaultFn nm f => exact h
  | otherItem t => exact h

/-- One step of the import rewrite is idempotent. -/
theorem rewriteInfernoItem_idem (cfg : Config) (it : JSModuleItem) :
    rewriteInfernoItem cfg (rewriteInfernoItem cfg it) = rewriteInfernoItem cfg it := by
  cases it with
  | importDecl imp =>
    by_cases hs : imp.src = "inferno"
    · by_cases hr : resolveImportSource cfg = "inferno"
      · simp [rewriteInfernoItem, hs, hr]
      · simp [rewriteInfernoItem, hs, hr]
    · simp [rewriteInfernoItem, hs]
  | stmtItem st => rfl
  | exportDecl d => rfl
  | exportDefaultFn nm f => rfl
  | otherItem t => rfl

/-- The import rewrite is idempotent on whole modules. -/
theorem rewriteInfernoImports_idem (cfg : Config) (items : List JSModuleItem) :
    rewriteInfernoImports cfg (rewriteInfernoImports cfg items)
      = rewriteInfernoImports cfg items := by
  unfold rewriteInfernoImports
  rw [List.map_map]
  exact List.map_congr_left fun a _ => rewriteInfernoItem_idem cfg a

/-- An import whose source is already the configured source is left alone by
the import rewrite. -/
theorem rewriteInfernoItem_resolved (cfg : Config) (specs : List JSImportSpecifier) (t : Bool) :
    rewriteInfernoItem cfg (.importDecl ⟨resolveImportSource cfg, specs, t⟩)
      = .importDecl ⟨resolveImportSource cfg, specs, t⟩ := by
  by_cases hr : resolveImportSource cfg = "inferno"
  · simp [rewriteInfernoItem, hr]
  · simp [rewriteInfernoItem, hr]

/-- With a fresh state (no base class allocated) the injection is a no-op. -/
theorem injectRuntime_initState (cfg : Config) (items : List JSModuleItem) :
    injectRuntime cfg initState items = items := rfl

/-- Everything the injection outputs is an import declaration or one of the
input items. -/
theorem injectRuntime_mem (cfg : Config) (s : TState) (items : List JSModuleItem) :
    ∀ it ∈ injectRuntime cfg s items, (∃ imp, it = .importDecl imp) ∨ it ∈ items := by
  intro it h
  unfold injectRuntime at h
  split at h
  · exact Or.inr h
  · rcases List.mem_cons.mp h with h | h
    · exact Or.inl ⟨_, h⟩
    · exact Or.inr h

/-- Injection preserves untouchedness of all module items. -/
theorem injectRuntime_untouched (cfg : Config) (s : TState) (items : List JSModuleItem)
    (h : ∀ it ∈ items, untouchedItem it) :
    ∀ it ∈ injectRuntime cfg s items, untouchedItem it := by
  intro it hit
  rcases injectRuntime_mem cfg s items it hit with ⟨imp, rfl⟩ | hmem
  · exact fun s0 => rfl
  · exact h it hmem

/-- Applying the import rewrite once more after injection changes nothing:
the injected import already carries the configured source, and the rewrite is
idempotent on the rest. -/
theorem rewrite_inject_fixed (cfg : Config) (s : TState) (items : List JSModuleItem) :
    rewriteInfernoImports cfg (injectRuntime cfg s (rewriteInfernoImports cfg items))
      = injectRuntime cfg s (rewriteInfernoImports cfg items) := by
  unfold injectRuntime
  split
  · exact rewriteInfernoImports_idem cfg items
  · show rewriteInfernoImports cfg (_ :: _) = _
    simp only [rewriteInfernoImports, List.map_cons]
    rw [rewriteInfernoItem_resolved]
    have h2 := rewriteInfernoImports_idem cfg items
    simp only [rewriteInfernoImports] at h2
    rw [List.map_map] at h2 ⊢
    rw [h2]

/-! ### Claim theorems -/

/-- Claim C1: for every module-level function declaration, bare or wrapped in
a named export, classification is total and deterministic with the stateful
test evaluated first: a function passing `is_rask_component` is rewritten to
the stateful class regardless of the stateless test, a function passing only
`is_stateless_component` is rewritten to the stateless class, and a
`NotAComponent` function is left as a function declaration. -/
theorem c1_classification_precedence (s : TState) (name : String) (f : JSFunction) :
    (isRaskComponent f = true → classify f = .Stateful)
  ∧ (isRaskComponent f = false → isStatelessComponent f = true → classify f = .Stateless)
  ∧ (isRaskComponent f = false → isStatelessComponent f = false → classify f = .NotAComponent)
  ∧ (isRaskComponent f = true →
       transformItem s (.stmtItem (.declStmt (.fnDecl name f)))
         = (.stmtItem (.declStmt (transformToStatefulClass s name f).1),
            (transformToStatefulClass s name f).2))
  ∧ (isRaskComponent f = false → isStatelessComponent f = true →
       transformItem s (.stmtItem (.declStmt (.fnDecl name f)))
         = (.stmtItem (.declStmt (transformToStatelessClass s name f).1),
            (transformToStatelessClass s name f).2))
  ∧ (isRaskComponent f = false → isStatelessComponent f = false →
       transformItem s (.stmtItem (.declStmt (.fnDecl name f)))
         = (.stmtItem (.declStmt (.fnDecl name f)), s))
  ∧ (isRaskComponent f = true →
       transformItem s (.exportDecl (.fnDecl name f))
         = (.exportDecl (transformToStatefulClass s name f).1,
            (transformToStatefulClass s name f).2))
  ∧ (isRaskComponent f = false → isStatelessComponent f = true →
       transformItem s (.exportDecl (.fnDecl name f))
         = (.exportDecl (transformToStatelessClass s name f).1,
            (transformToStatelessClass s name f).2))
  ∧ (isRaskComponent f = false → isStatelessComponent f = false →
       transformItem s (.exportDecl (.fnDecl name f)) = (.exportDecl (.fnDecl name f), s)) := by
  refine ⟨?_, ?_, ?_, ?_, ?_, ?_, ?_, ?_, ?_⟩ <;> intros <;> simp_all [classify, transformItem]

/-- Witness for C1 at a function satisfying both predicates: the stateful
test wins. -/
theorem c1_classification_precedence_witness :
    isRaskComponent twoReturnsFn = true
  ∧ isStatelessComponent twoReturnsFn = true
  ∧ classify twoReturnsFn = .Stateful
  ∧ transformItem initState (.stmtItem (.declStmt (.fnDecl "F" twoReturnsFn)))
      = (.stmtItem (.declStmt (transformToStatefulClass initState "F" twoReturnsFn).1),
         (transformToStatefulClass initState "F" twoReturnsFn).2) := by
  refine ⟨rfl, rfl, ?_, ?_⟩
  · exact (c1_classification_precedence initState "F" twoReturnsFn).1 rfl
  · exact (c1_classification_precedence initState "F" twoReturnsFn).2.2.2.1 rfl

/-- Claim C2: on a `Call` expression the detector is true exactly when the
callee is a bare identifier equal to one of the four creation-call names or
some argument recursively satisfies the detector; consequently the list-map
example classifies Stateless and never Stateful. -/
theorem c2_call_detector (c : JSCallee) (args : List JSExpr) :
    (hasVnodeCall (.call c args) = true ↔
      ((∃ sym, c = JSCallee.calleeExpr (.ident sym) ∧
          (sym = "createVNode" ∨ sym = "createComponentVNode" ∨
           sym = "createFragment" ∨ sym = "createTextVNode"))
        ∨ ∃ a ∈ args, hasVnodeCall a = true))
  ∧ classify mapExampleFn = .Stateless
  ∧ isRaskComponent mapExampleFn = false := by
  refine ⟨?_, rfl, rfl⟩
  cases c with
  | calleeOther => simp [hasVnodeCall, hasVnodeCallArgs_iff]
  | calleeExpr e =>
    cases e <;> simp [hasVnodeCall, hasVnodeCallArgs_iff]
    tauto

/-- Witness for C2: the list-map example's return argument — a call whose
callee is a member expression — satisfies the detector through the
call-argument recursion. -/
theorem c2_call_detector_witness :
    hasVnodeCall (.call (.calleeExpr (.member (.ident "items")))
      [.arrow [0] (.bodyExpr createVNodeCall)]) = true := by
  exact ((c2_call_detector (.calleeExpr (.member (.ident "items")))
      [.arrow [0] (.bodyExpr createVNodeCall)]).1).mpr
    (Or.inr ⟨.arrow [0] (.bodyExpr createVNodeCall), by simp, rfl⟩)

/-- Counterexample to claim C3 as stated: a function with two top-level
returns — the first an arrow wrapping a creation call, the second a creation
call directly — satisfies the stateful and the stateless predicate at once,
so the arrow-exclusion alone does not make the two classes disjoint. -/
theorem c3_counterexample :
    isRaskComponent twoReturnsFn = true ∧ isStatelessComponent twoReturnsFn = true :=
  ⟨rfl, rfl⟩

/-- Claim C3 (amended): the arrow-exclusion makes the two shapes disjoint
only per return statement — no single top-level return witnesses both tests,
and a function with at most one top-level return statement cannot satisfy
both predicates; with several returns both can hold, and exclusivity of the
classification is restored by the evaluation order (stateful first). -/
theorem c3_same_return_disjoint (st : JSStmt) (f : JSFunction) (stmts : List JSStmt) :
    (statefulRet st = true → statelessRet st = false)
  ∧ (f.body = some stmts →
      (∀ r1 ∈ stmts, ∀ r2 ∈ stmts, isReturnStmt r1 = true → isReturnStmt r2 = true → r1 = r2) →
      ¬(isRaskComponent f = true ∧ isStatelessComponent f = true)) := by
  refine ⟨statefulRet_not_statelessRet st, ?_⟩
  rintro hb hone ⟨h1, h2⟩
  simp only [isRaskComponent, hb, List.any_eq_true] at h1
  simp only [isStatelessComponent, hb, List.any_eq_true] at h2
  obtain ⟨r1, hr1m, hr1⟩ := h1
  obtain ⟨r2, hr2m, hr2⟩ := h2
  have heq : r1 = r2 :=
    hone r1 hr1m r2 hr2m (statefulRet_isReturn r1 hr1) (statelessRet_isReturn r2 hr2)
  have := statefulRet_not_statelessRet r1 hr1
  rw [heq, hr2] at this
  simp at this

/-- Witness for C3 (amended) at a single-return stateful function. -/
theorem c3_same_return_disjoint_witness :
    statelessRet (.ret (some (.arrow [] (.bodyExpr createVNodeCall)))) = false
  ∧ ¬(isRaskComponent statefulExampleFn = true ∧ isStatelessComponent statefulExampleFn = true) := by
  constructor
  · exact (c3_same_return_disjoint (.ret (some (.arrow [] (.bodyExpr createVNodeCall))))
      statefulExampleFn []).1 rfl
  · exact (c3_same_return_disjoint (.otherStmt 0) statefulExampleFn
      [.ret (some (.arrow [] (.bodyExpr createVNodeCall)))]).2 rfl (by simp)

/-- Claim C4: the synthesized class keeps the original function's name and
holds exactly one instance field — `setup` for stateful, `renderFn` for
stateless — whose value is a function expression carrying the original name
and the original function (parameters, body, and every nested statement)
verbatim. -/
theorem c4_rewrite_frame (s : TState) (name : String) (f : JSFunction) :
    ((transformToStatefulClass s name f).1
        = .classDecl name
            (some (.ident (s.importRaskStatefulComponent.getD "RaskStatefulComponent")))
            [.classProp "setup" (some (.fnExpr (some name) f))])
  ∧ ((transformToStatelessClass s name f).1
        = .classDecl name
            (some (.ident (s.importRaskStatelessComponent.getD "RaskStatelessComponent")))
            [.classProp "renderFn" (some (.fnExpr (some name) f))])
  ∧ (isRaskComponent f = true →
       (transformItem s (.stmtItem (.declStmt (.fnDecl name f)))).1
         = .stmtItem (.declStmt (.classDecl name
             (some (.ident (s.importRaskStatefulComponent.getD "RaskStatefulComponent")))
             [.classProp "setup" (some (.fnExpr (some name) f))])))
  ∧ (isRaskComponent f = false → isStatelessComponent f = true →
       (transformItem s (.exportDecl (.fnDecl name f))).1
         = .exportDecl (.classDecl name
             (some (.ident (s.importRaskStatelessComponent.getD "RaskStatelessComponent")))
             [.classProp "renderFn" (some (.fnExpr (some name) f))])) := by
  refine ⟨rfl, rfl, ?_, ?_⟩
  · intro h1
    simp [transformItem, h1, transformToStatefulClass]
  · intro h1 h2
    simp [transformItem, h1, h2, transformToStatelessClass]

/-- Witness for C4 at the single-return stateful example. -/
theorem c4_rewrite_frame_witness :
    isRaskComponent statefulExampleFn = true
  ∧ (transformItem initState (.stmtItem (.declStmt (.fnDecl "F" statefulExampleFn)))).1
      = .stmtItem (.declStmt (.classDecl "F" (some (.ident "RaskStatefulComponent"))
          [.classProp "setup" (some (.fnExpr (some "F") statefulExampleFn))])) := by
  refine ⟨rfl, ?_⟩
  exact (c4_rewrite_frame initState "F" statefulExampleFn).2.2.1 rfl

/-- Claim C5: the transform is idempotent — rerunning it on its own output is
the identity: synthesized classes are no longer function declarations and are
never reclassified, the rewritten and injected imports are fixed points of
the import rewrite, and no base class is allocated in the second pass, so
no import specifier is injected again. -/
theorem c5_idempotent (cfg : Config) (m : List JSModuleItem) :
    transformModule cfg (transformModule cfg m) = transformModule cfg m := by
  have hunt1 : ∀ it ∈ (transformItems initState m).1, untouchedItem it :=
    transformItems_untouched_result m initState
  have hunt2 : ∀ it ∈ rewriteInfernoImports cfg (transformItems initState m).1,
      untouchedItem it := by
    intro it hit
    simp only [rewriteInfernoImports, List.mem_map] at hit
    obtain ⟨a, ha, rfl⟩ := hit
    exact rewriteInfernoItem_untouched cfg a (hunt1 a ha)
  have hout : ∀ it ∈ transformModule cfg m, untouchedItem it := by
    intro it hit
    exact injectRuntime_untouched cfg _ _ hunt2 it hit
  show transformModule cfg (transformModule cfg m) = transformModule cfg m
  conv_lhs => rw [transformModule]
  rw [transformItems_fixed (transformModule cfg m) initState hout]
  show injectRuntime cfg initState
      (rewriteInfernoImports cfg (transformModule cfg m)) = transformModule cfg m
  rw [injectRuntime_initState]
  show rewriteInfernoImports cfg (transformModule cfg m) = transformModule cfg m
  rw [transformModule]
  exact rewrite_inject_fixed cfg _ _

/-- Claim C6: the module pass runs injection strictly after the item
traversal and the legacy-import rewrite; injection emits at most one
new import statement, inserted first, from the configured source, carrying
exactly the queued specifiers; a specifier is queued for a base-class name
exactly when that base class was allocated and no matching import from the
configured source exists; and the queued specifiers bind pairwise
distinct imported names. -/
theorem c6_injection_order_and_uniqueness (cfg : Config) (s : TState) (items : List JSModuleItem) :
    (transformModule cfg items
       = injectRuntime cfg (transformItems initState items).2
           (rewriteInfernoImports cfg (transformItems initState items).1))
  ∧ (injectRuntime cfg s items
       = if (queuedSpecs cfg s items).isEmpty then items
         else .importDecl ⟨resolveImportSource cfg, queuedSpecs cfg s items, false⟩ :: items)
  ∧ (∀ localName,
       JSImportSpecifier.named localName (some (.nameIdent "RaskStatefulComponent")) false
           ∈ queuedSpecs cfg s items
       ↔ (s.importRaskStatefulComponent = some localName
            ∧ importExists cfg items "RaskStatefulComponent" = false))
  ∧ (∀ localName,
       JSImportSpecifier.named localName (some (.nameIdent "RaskStatelessComponent")) false
           ∈ queuedSpecs cfg s items
       ↔ (s.importRaskStatelessComponent = some localName
            ∧ importExists cfg items "RaskStatelessComponent" = false))
  ∧ List.Pairwise (fun a b => specImportedSym a ≠ specImportedSym b) (queuedSpecs cfg s items) := by
  obtain ⟨stf, stl⟩ := s
  refine ⟨rfl, rfl, ?_, ?_, ?_⟩
  · intro localName
    cases stf <;> cases stl <;>
      simp [queuedSpecs, statefulQueued, statelessQueued] <;>
      (constructor
       · rintro ⟨h1, h2⟩
         exact ⟨h2.symm, h1⟩
       · rintro ⟨h1, h2⟩
         exact ⟨h2, h1.symm⟩)
  · intro localName
    cases stf <;> cases stl <;>
      simp [queuedSpecs, statefulQueued, statelessQueued] <;>
      (constructor
       · rintro ⟨h1, h2⟩
         exact ⟨h2.symm, h1⟩
       · rintro ⟨h1, h2⟩
         exact ⟨h2, h1.symm⟩)
  · cases stf <;> cases stl <;>
      simp [queuedSpecs, statefulQueued, statelessQueued] <;>
      split_ifs <;> simp_all [specImportedSym]

/-- Witness for C6: with both base classes allocated and no existing imports,
both specifiers are queued and emitted as one import statement placed
first. -/
theorem c6_injection_order_and_uniqueness_witness :
    (JSImportSpecifier.named "A" (some (.nameIdent "RaskStatefulComponent")) false
        ∈ queuedSpecs ⟨none⟩ c6State [])
  ∧ (JSImportSpecifier.named "B" (some (.nameIdent "RaskStatelessComponent")) false
        ∈ queuedSpecs ⟨none⟩ c6State [])
  ∧ injectRuntime ⟨none⟩ c6State []
      = [.importDecl ⟨"rask-ui",
          [.named "A" (some (.nameIdent "RaskStatefulComponent")) false,
           .named "B" (some (.nameIdent "RaskStatelessComponent")) false], false⟩] := by
  refine ⟨?_, ?_, ?_⟩
  · exact ((c6_injection_order_and_uniqueness ⟨none⟩ c6State []).2.2.1 "A").mpr ⟨rfl, rfl⟩
  · exact ((c6_injection_order_and_uniqueness ⟨none⟩ c6State []).2.2.2.1 "B").mpr ⟨rfl, rfl⟩
  · have h := (c6_injection_order_and_uniqueness ⟨none⟩ c6State []).2.1
    simpa using h

/-- Claim C7: a function expression in a default export is never rewritten —
`visit_mut_module_item` returns the item untouched with the state untouched,
and a whole-module transform of such an item leaves the module unchanged (in
particular no base class is allocated and no import is injected for it) —
whatever the function's classification. -/
theorem c7_default_export_never_rewritten (cfg : Config) (s : TState)
    (nm : Option String) (f : JSFunction) :
    transformItem s (.exportDefaultFn nm f) = (.exportDefaultFn nm f, s)
  ∧ transformModule cfg [.exportDefaultFn nm f] = [.exportDefaultFn nm f] :=
  ⟨rfl, rfl⟩

/-- Claim C8: an import whose source is the fixed legacy name gets exactly
its source string replaced — by the configured source, or by the default
`rask-ui` when the configuration is absent; parse failure degrades to the
default configuration — while its specifiers and all other items are left
unchanged. -/
theorem c8_inferno_rewrite (cfg : Config) (imp : JSImportDecl) (st : JSStmt) (d : JSDecl)
    (nm : Option String) (f : JSFunction) (t : Nat) (src : String) :
    (imp.src = "inferno" →
        rewriteInfernoItem cfg (.importDecl imp)
          = .importDecl ⟨resolveImportSource cfg, imp.specifiers, imp.typeOnly⟩)
  ∧ (imp.src ≠ "inferno" → rewriteInfernoItem cfg (.importDecl imp) = .importDecl imp)
  ∧ rewriteInfernoItem cfg (.stmtItem st) = .stmtItem st
  ∧ rewriteInfernoItem cfg (.exportDecl d) = .exportDecl d
  ∧ rewriteInfernoItem cfg (.exportDefaultFn nm f) = .exportDefaultFn nm f
  ∧ rewriteInfernoItem cfg (.otherItem t) = .otherItem t
  ∧ (rewriteInfernoImports cfg
       = fun items : List JSModuleItem => items.map (rewriteInfernoItem cfg))
  ∧ resolveImportSource ⟨some src⟩ = src
  ∧ resolveImportSource ⟨none⟩ = "rask-ui"
  ∧ configOfParse none = ⟨none⟩
  ∧ resolveImportSource (configOfParse none) = "rask-ui" := by
  refine ⟨?_, ?_, rfl, rfl, rfl, rfl, rfl, rfl, rfl, rfl, rfl⟩
  · intro h
    simp [rewriteInfernoItem, h]
  · intro h
    simp [rewriteInfernoItem, h]

/-- Witness for C8 on concrete imports: a legacy import is retargeted to the
configured source, a non-legacy import is untouched. -/
theorem c8_inferno_rewrite_witness :
    rewriteInfernoItem ⟨some "my-runtime"⟩ (.importDecl ⟨"inferno", [], false⟩)
      = .importDecl ⟨"my-runtime", [], false⟩
  ∧ rewriteInfernoItem ⟨some "my-runtime"⟩ (.importDecl ⟨"other", [], false⟩)
      = .importDecl ⟨"other", [], false⟩ := by
  constructor
  · exact (c8_inferno_rewrite ⟨some "my-runtime"⟩ ⟨"inferno", [], false⟩ (.otherStmt 0)
      (.otherDecl 0) none helperFn 0 "x").1 rfl
  · exact (c8_inferno_rewrite ⟨some "my-runtime"⟩ ⟨"other", [], false⟩ (.otherStmt 0)
      (.otherDecl 0) none helperFn 0 "x").2.1 (by decide)

/-- Counterexample to claim C9 as stated: the string-named aliased specifier
of `c9StrAliasImport` (importing `"SomethingElse"` under the local binding
`RaskStatefulComponent` from `"rask-ui"`)
falls into the `else` branch of the existence check, its local binding
matches the base-class name, so it does count as existing and injection does
not insert a new named import. -/
theorem c9_counterexample :
    importExists ⟨none⟩ c9Items "RaskStatefulComponent" = true
  ∧ injectRuntime ⟨none⟩ c9State c9Items = c9Items :=
  ⟨rfl, rfl⟩

/-- Claim C9 (amended): the existence check considers only named import
specifiers; it compares the explicit imported name when that name is an
identifier, and otherwise — shorthand specifiers and string-named aliased
specifiers alike — compares the local binding; a default import or a
namespace import never counts as existing, so injection still inserts a new
named import when only such specifiers are present. -/
theorem c9_existence_check (cfg : Config) (nm localName other : String) (b tb : Bool) :
    importedNameMatches nm (.named localName (some (.nameIdent other)) b) = (other == nm)
  ∧ importedNameMatches nm (.named localName none b) = (localName == nm)
  ∧ importedNameMatches nm (.named localName (some (.nameStr other)) b) = (localName == nm)
  ∧ importedNameMatches nm (.defaultSpec localName) = false
  ∧ importedNameMatches nm (.namespaceSpec localName) = false
  ∧ importExists cfg
      [.importDecl ⟨resolveImportSource cfg, [.defaultSpec localName, .namespaceSpec other], tb⟩]
      "RaskStatefulComponent" = false
  ∧ injectRuntime cfg ⟨some localName, none⟩
      [.importDecl ⟨resolveImportSource cfg, [.defaultSpec localName, .namespaceSpec other], tb⟩]
      = .importDecl ⟨resolveImportSource cfg,
          [.named localName (some (.nameIdent "RaskStatefulComponent")) false], false⟩
        :: [.importDecl ⟨resolveImportSource cfg,
              [.defaultSpec localName, .namespaceSpec other], tb⟩] := by
  have h6 : importExists cfg
      [.importDecl ⟨resolveImportSource cfg, [.defaultSpec localName, .namespaceSpec other], tb⟩]
      "RaskStatefulComponent" = false := by
    simp [importExists, importedNameMatches]
  refine ⟨rfl, rfl, rfl, rfl, rfl, h6, ?_⟩
  simp [injectRuntime, queuedSpecs, statefulQueued, statelessQueued, h6]

/-- Claim C10: only module-level function declarations (bare statements and
named-export declarations) can be rewritten.  A function declaration nested
inside any other statement — a return, a block, an opaque statement, or a
class or other declaration — sits inside an item that `visit_mut_module_item`
returns verbatim, and even when a top-level function is rewritten its entire
body, including any nested declarations, is embedded unchanged. -/
theorem c10_nested_functions_untouched (s : TState) (a : Option JSExpr) (t : Nat)
    (bs : List JSStmt) (n : String) (sup : Option JSExpr) (mems : List JSClassMember)
    (f : JSFunction) :
    transformItem s (.stmtItem (.ret a)) = (.stmtItem (.ret a), s)
  ∧ transformItem s (.stmtItem (.block bs)) = (.stmtItem (.block bs), s)
  ∧ transformItem s (.stmtItem (.otherStmt t)) = (.stmtItem (.otherStmt t), s)
  ∧ transformItem s (.stmtItem (.declStmt (.classDecl n sup mems)))
      = (.stmtItem (.declStmt (.classDecl n sup mems)), s)
  ∧ transformItem s (.stmtItem (.declStmt (.otherDecl t)))
      = (.stmtItem (.declStmt (.otherDecl t)), s)
  ∧ transformItem s (.otherItem t) = (.otherItem t, s)
  ∧ (isRaskComponent f = true →
       (transformItem s (.stmtItem (.declStmt (.fnDecl n f)))).1
         = .stmtItem (.declStmt (.classDecl n
             (some (.ident (s.importRaskStatefulComponent.getD "RaskStatefulComponent")))
             [.classProp "setup" (some (.fnExpr (some n) f))]))) := by
  refine ⟨rfl, rfl, rfl, rfl, rfl, rfl, ?_⟩
  intro h1
  simp [transformItem, h1, transformToStatefulClass]

/-- Witness for C10 at a stateful component carrying a nested function
declaration in its body: the body, nested declaration included, is embedded
verbatim. -/
theorem c10_nested_functions_untouched_witness :
    isRaskComponent statefulWithNestedFn = true
  ∧ (transformItem initState (.stmtItem (.declStmt (.fnDecl "F" statefulWithNestedFn)))).1
      = .stmtItem (.declStmt (.classDecl "F" (some (.ident "RaskStatefulComponent"))
          [.classProp "setup" (some (.fnExpr (some "F") statefulWithNestedFn))])) := by
  refine ⟨rfl, ?_⟩
  exact (c10_nested_functions_untouched initState none 0 [] "F" none [] statefulWithNestedFn).2.2.2.2.2.2 rfl
